import Mathlib

/-!
Verification model of the TestZen resolution & self-healing engine.

The definitions below are shallow embeddings of
`src/framework/core/self_healing.py` (namespace `SelfHealing`) and of
`src/src/utils/device_utils.py` (namespace `DeviceUtils`).  External
collaborators that live outside the repository (the Selenium/Appium driver,
`difflib.SequenceMatcher.ratio`, the sklearn vectorizer/classifier) are
modelled as parameters or as abstract oracles; everything written in the
repository itself is translated line by line.  Python floats are modelled as
rationals, Python exceptions as `Except` values, Python dictionaries as
association lists in insertion order.
-/

/-- Association-list lookup, the model of `dict.__getitem__` /
`key in dict` for string-keyed Python dictionaries. -/
def assocFind {α : Type} : List (String × α) → String → Option α
  | [], _ => none
  | (k, v) :: rest, key => if k = key then some v else assocFind rest key

/-- Association-list update-or-append, the model of `dict[key] = value`:
an existing key is overwritten in place, a new key is appended at the end
(Python dictionaries preserve insertion order). -/
def dictInsert {α : Type} (m : List (String × α)) (key : String) (v : α) :
    List (String × α) :=
  if m.any (fun p => p.1 = key) then
    m.map (fun p => if p.1 = key then (key, v) else p)
  else m ++ [(key, v)]

/-- Split a character list at every separator character, keeping empty
segments, exactly like Python `re.split` with a single-character class or
`str.split(sep)`: the result always has at least one (possibly empty)
segment. -/
def splitOnSep (sep : Char → Bool) : List Char → List (List Char)
  | [] => [[]]
  | c :: cs =>
    match splitOnSep sep cs with
    | [] => [[]]
    | h :: t => if sep c then [] :: h :: t else (c :: h) :: t

/-- Python `str.strip()`: drop whitespace from both ends. -/
def pyStrip (l : List Char) : List Char :=
  ((l.dropWhile Char.isWhitespace).reverse.dropWhile Char.isWhitespace).reverse

/-- Python `str.title()` restricted to the ASCII data handled here: the
first cased character of every run of alphabetic characters is uppercased,
the following alphabetic characters are lowercased, and any non-alphabetic
character starts a new word. -/
def pyTitleGo : List Char → Bool → List Char
  | [], _ => []
  | c :: cs, prevCased =>
    if c.isAlpha then
      (if prevCased then c.toLower else c.toUpper) :: pyTitleGo cs true
    else c :: pyTitleGo cs false

def pyTitle (s : String) : String := String.mk (pyTitleGo s.data false)

/-- `c in s` for a character and a Python string. -/
def pyContains (s : String) (c : Char) : Bool := s.data.contains c

/-- Python `str.lower()` for the ASCII data handled here. -/
def pyLower (s : String) : String := String.mk (s.data.map Char.toLower)

/-- Python `str.startswith(pre)`. -/
def pyStartsWith (s pre : String) : Bool := pre.data.isPrefixOf s.data

/-- Left-to-right, non-overlapping replacement of every occurrence of a
non-empty pattern, exactly like Python `str.replace`; the fuel argument
only bounds the recursion and is passed the string length. -/
def replaceFuel (pat rep : List Char) : Nat → List Char → List Char
  | 0, l => l
  | _ + 1, [] => []
  | fuel + 1, c :: cs =>
    if pat.isPrefixOf (c :: cs) then
      rep ++ replaceFuel pat rep fuel (cs.drop (pat.length - 1))
    else c :: replaceFuel pat rep fuel cs

/-- Python `str.replace(pat, rep)` (for the non-empty patterns used in
the source). -/
def pyReplace (s pat rep : String) : String :=
  String.mk (replaceFuel pat.data rep.data s.data.length s.data)

/-- Python `" ".join(parts)`. -/
def joinSpace : List String → String
  | [] => ""
  | [s] => s
  | s :: rest => s ++ " " ++ joinSpace rest

/-- The float 0.5 as an exact rational, in normal form so that kernel
evaluation of comparisons is possible. -/
def q_half : ℚ := ⟨1, 2, by norm_num, by norm_num⟩

/-- The float 0.6 as an exact rational in normal form. -/
def q_06 : ℚ := ⟨3, 5, by norm_num, by norm_num⟩

/-- The float 0.65 as an exact rational in normal form. -/
def q_065 : ℚ := ⟨13, 20, by norm_num, by norm_num⟩

/-- The float 0.7 as an exact rational in normal form. -/
def q_07 : ℚ := ⟨7, 10, by norm_num, by norm_num⟩

namespace SelfHealing

/-- A live UI element as observed through the automation driver
(`src/framework/core/self_healing.py` reads it only through
`is_displayed`, `is_enabled`, `.text`, `.tag_name`, `get_attribute` and a
sibling query; those observations are the fields of this structure). -/
structure Element where
  displayed : Bool
  enabled : Bool
  text : String
  tag_name : String
  attrs : List (String × String)
  siblings : Nat
deriving DecidableEq, Repr

/-- `element.get_attribute(name) or ''`: missing attributes read as the
empty string. -/
def getAttr (e : Element) (name : String) : String :=
  (assocFind e.attrs name).getD ""

/-- `HealingStrategy` dataclass (self_healing.py lines 32-39). -/
structure HealingStrategy where
  name : String
  confidence : ℚ
  new_locator_type : String
  new_locator_value : String
  reasoning : String
deriving DecidableEq, Repr

/-- `ElementSignature` dataclass (self_healing.py lines 20-30). -/
structure ElementSignature where
  locator_type : String
  locator_value : String
  attributes : List (String × String)
  text : String
  tag_name : String
  parent_signature : Option String
  siblings_count : Nat
  position : Nat
deriving DecidableEq, Repr

/-- The engine's external collaborators: `_find_element_regular` resolves a
(type, value) locator through the Selenium driver (`none` models the
`TimeoutException` raised when nothing is present),
`queryAll` models `driver.find_elements_by_xpath`, and `sim` is
`difflib.SequenceMatcher(None, a, b).ratio()` on already-lowercased
strings.  All three live outside the repository. -/
structure HealEnv where
  find : String → String → Option Element
  queryAll : String → List Element
  sim : String → String → ℚ

/-- `SelfHealingEngine._calculate_similarity` (lines 353-355): lowercase
both strings, then take the difflib ratio. -/
def calculate_similarity (env : HealEnv) (text1 text2 : String) : ℚ :=
  env.sim (pyLower text1) (pyLower text2)

/-- `element.text or element.get_attribute('value') or ''` as used by the
validator (line 365). -/
def element_text_of (e : Element) : String :=
  if e.text ≠ "" then e.text else getAttr e "value"

/-- `SelfHealingEngine._validate_healed_element` (lines 357-378): reject a
candidate that is not displayed or not enabled; accept on text similarity
strictly above 0.5; else accept on any of the four attribute similarities
strictly above 0.5; else accept anyway (`return True` on line 375). -/
def validate_healed_element (env : HealEnv) (e : Element)
    (original_value : String) : Bool :=
  if !e.displayed || !e.enabled then false
  else if calculate_similarity env original_value (element_text_of e) > q_half
  then true
  else if (["id", "name", "class", "placeholder"].any fun attr =>
      calculate_similarity env original_value (getAttr e attr) > q_half) then
    true
  else true

/-- `SelfHealingEngine._create_element_signature` (lines 399-427), success
path: collect the six probed attributes that are non-empty, in probe
order.  The `except` branch (lines 418-427) only fires on driver-transport
failures, which are outside this model. -/
def create_element_signature (e : Element) (lt lv : String) :
    ElementSignature :=
  { locator_type := lt
    locator_value := lv
    attributes :=
      ["id", "name", "class", "type", "placeholder", "value"].filterMap
        (fun a =>
          match assocFind e.attrs a with
          | some v => if v ≠ "" then some (a, v) else none
          | none => none)
    text := e.text
    tag_name := e.tag_name
    parent_signature := none
    siblings_count := e.siblings
    position := 0 }

/-- Python exceptions that matter to the model: sklearn's
`ValueError: empty vocabulary` and the `NameError` raised by evaluating
the unimported name `time`. -/
inductive PyError
  | valueError
  | nameError
deriving DecidableEq, Repr

/-- A character matched by `\w` in sklearn's default token pattern. -/
def isWordChar (c : Char) : Bool := c.isAlphanum || c = '_'

/-- Maximal runs of word characters of a character list. -/
def wordRuns : List Char → List Char → List (List Char)
  | [], cur => if cur.isEmpty then [] else [cur.reverse]
  | c :: cs, cur =>
    if isWordChar c then wordRuns cs (c :: cur)
    else if cur.isEmpty then wordRuns cs []
    else cur.reverse :: wordRuns cs []

/-- The tokens `TfidfVectorizer` extracts with its defaults: lowercase the
text, then keep every maximal run of word characters of length at least 2
(token pattern `\b\w\w+\b`). -/
def sklearnTokens (s : String) : List String :=
  ((wordRuns (pyLower s).data []).filter (fun r => 2 ≤ r.length)).map
    (fun r => String.mk r)

/-- One entry of `ElementLearner.element_history` (lines 59-64).  The
Python dict literal also stores `'timestamp': time.time()`; evaluating it
raises `NameError` because the module never imports `time`, so no entry is
ever actually constructed — see `learn_element`. -/
structure LearningRecord where
  signature : ElementSignature
  features : List String
  success : Bool
deriving DecidableEq, Repr

/-- The mutable state of `ElementLearner`: the per-element history dict, a
count of `_retrain_model` invocations (instrumentation for the batch
trigger on lines 66-68), and the classifier — `none` while
`RandomForestClassifier.fit` has never been called, in which case
`predict_proba` raises `NotFittedError`. -/
structure LearnerState where
  element_history : List (String × List LearningRecord)
  retrains : Nat
  model : Option (List String → ℚ)

/-- `ElementLearner._extract_features` (lines 70-94): join the four text
features with spaces and run the vectorizer over them.
`TfidfVectorizer.fit_transform` raises `ValueError` when the joined text
yields no token ("empty vocabulary"); otherwise the call succeeds.  The
numeric feature components (lines 84-93) are total and never influence
control flow, so the feature vector is modelled by its token list. -/
def extract_features (sig : ElementSignature) :
    Except PyError (List String) :=
  let joined := joinSpace
    [sig.locator_value, sig.text, sig.tag_name,
     joinSpace (sig.attributes.map Prod.snd)]
  let toks := sklearnTokens joined
  if toks.isEmpty then Except.error PyError.valueError
  else Except.ok toks

/-- `ElementLearner.learn_element` (lines 52-68), modelled with both the
exception it raises and the state it leaves behind.  Line 54 runs the
feature extraction first: if that raises `ValueError`, nothing else
executes and the state is unchanged.  Otherwise lines 56-57 insert a
fresh empty list under `element_id` when the key is missing (Python
dicts append new keys at the end); then the `append` argument on lines
59-64 evaluates `time.time()` — the module `self_healing.py` never
imports `time` (its imports are lines 7-18), so a `NameError` is raised
before the record is appended.  The key insertion has already happened
in place, but the record, the retrain check on lines 66-68 and the model
are never touched.  The function body has no `return`, so a
(never-reached) normal completion would yield `None`, i.e. `Unit`. -/
def learn_element (st : LearnerState) (element_id : String)
    (sig : ElementSignature) (_success : Bool) :
    Except PyError Unit × LearnerState :=
  match extract_features sig with
  | Except.error e => (Except.error e, st)
  | Except.ok _features =>
    (Except.error PyError.nameError,
     if st.element_history.any (fun p => p.1 = element_id) then st
     else { st with element_history :=
       st.element_history ++ [(element_id, [])] })

/-- The total number of learning records accumulated across all element
identities — the sum of the per-key history-list lengths. -/
def totalRecords (st : LearnerState) : Nat :=
  (st.element_history.map (fun p => p.2.length)).sum

/-- A caller that issues a sequence of `learn_element` calls, swallowing
the exception each call raises while keeping the in-place mutations the
call made before raising — exactly how
`SelfHealingEngine.find_element_with_healing` consumes the learner (its
`try`/`except` blocks on lines 165-216 catch the exception and carry on
with the same, already-mutated, learner object). -/
def learn_many (st : LearnerState)
    (calls : List (String × ElementSignature × Bool)) : LearnerState :=
  calls.foldl (fun s c => (learn_element s c.1 c.2.1 c.2.2).2) st

/-- `ElementLearner.predict_success` (lines 110-117).  The feature
extraction on line 112 happens before the `try` block, so its
`ValueError` propagates to the caller; inside the `try`,
`predict_proba` on an unfitted classifier raises and the bare `except`
returns the 0.5 default. -/
def predict_success (st : LearnerState) (sig : ElementSignature) :
    Except PyError ℚ :=
  match extract_features sig with
  | Except.error e => Except.error e
  | Except.ok feats =>
    match st.model with
    | some clf => Except.ok (clf feats)
    | none => Except.ok q_half

/-- `SelfHealingEngine._try_partial_match` (lines 236-250): for an `id`
locator containing one of `_ - :`, split the value on those separators
(`re.split` keeps empty segments and never returns an empty list, so the
`if parts:` guard always passes here) and build an XPath keyed on the
first segment, `parts[0]`. -/
def try_partial_match (lt lv : String) : Option HealingStrategy :=
  if lt = "id" && (pyContains lv '_' || pyContains lv '-' || pyContains lv ':') then
    match splitOnSep (fun c => c = '_' || c = '-' || c = ':') lv.data with
    | [] => none
    | p :: _ =>
      some { name := "Partial ID Match"
             confidence := q_07
             new_locator_type := "xpath"
             new_locator_value :=
               "//*[starts-with(@id, " ++ "\x27" ++ String.mk p ++ "\x27)]"
             reasoning := "Dynamic ID detected, using partial match" }
  else none

/-- `SelfHealingEngine._try_text_search` (lines 252-264): turn an
`id`/`name`/`class` value into title-cased words and search text and
value attributes for them. -/
def try_text_search (lt lv : String) : Option HealingStrategy :=
  if lt = "id" || lt = "name" || lt = "class" then
    let text := pyTitle (pyReplace (pyReplace lv "_" " ") "-" " ")
    some { name := "Text Search"
           confidence := q_06
           new_locator_type := "xpath"
           new_locator_value :=
             "//*[contains(text(), " ++ "\x27" ++ text ++ "\x27" ++
               ") or contains(@value, " ++ "\x27" ++ text ++ "\x27)]"
           reasoning := "Searching by text content" }
  else none

/-- `SelfHealingEngine._try_relative_xpath` (lines 266-278). -/
def try_relative_xpath (lt lv : String) : Option HealingStrategy :=
  if lt = "xpath" && pyStartsWith lv "//" then
    some { name := "Flexible XPath"
           confidence := q_half
           new_locator_type := "xpath"
           new_locator_value := pyReplace (pyReplace lv "[1]" "") "//" "//*//"
           reasoning := "Using more flexible XPath" }
  else none

/-- `SelfHealingEngine._try_css_selector` (lines 280-297). -/
def try_css_selector (lt lv : String) : Option HealingStrategy :=
  if lt = "id" || lt = "class" || lt = "name" then
    let css :=
      if lt = "id" then "#" ++ lv
      else if lt = "class" then "." ++ (pyReplace lv " " ".")
      else "[name=" ++ "\x27" ++ lv ++ "\x27]"
    some { name := "CSS Selector"
           confidence := q_065
           new_locator_type := "css"
           new_locator_value := css
           reasoning := "Converting to CSS selector" }
  else none

/-- `SelfHealingEngine._try_ai_prediction` (lines 299-345): sample up to
50 queryable elements, score each by similarity of the locator value to
its id/class/text, and if the strict best score exceeds 0.6 and the best
element has a non-empty id, emit a strategy for that id.  (The score
formatting inside the `reasoning` f-string is elided.) -/
def try_ai_prediction (env : HealEnv) (lt lv : String) :
    Option HealingStrategy :=
  let all :=
    if lt = "id" then env.queryAll "//*[@id]"
    else if lt = "class" then env.queryAll "//*[@class]"
    else env.queryAll "//*"
  let best := (all.take 50).foldl
    (fun (acc : Option Element × ℚ) e =>
      let score := calculate_similarity env lv
        (getAttr e "id" ++ " " ++ getAttr e "class" ++ " " ++ e.text)
      if score > acc.2 then (some e, score) else acc)
    (none, 0)
  match best.1 with
  | none => none
  | some bm =>
    if best.2 > q_06 then
      let new_id := getAttr bm "id"
      if new_id ≠ "" then
        some { name := "AI Prediction"
               confidence := best.2
               new_locator_type := "id"
               new_locator_value := new_id
               reasoning := "AI predicted" }
      else none
    else none

/-- `SelfHealingEngine._try_visual_recognition` (lines 347-351): a
placeholder that emits no strategy. -/
def try_visual_recognition (_lt _lv : String) : Option HealingStrategy :=
  none

/-- The strategy generators in their registration order
(`self.healing_strategies`, lines 150-157), each applied to the failed
locator; `None` results are dropped (lines 224-230). -/
def gather_strategies (env : HealEnv) (lt lv : String) :
    List HealingStrategy :=
  [try_partial_match lt lv, try_text_search lt lv,
   try_relative_xpath lt lv, try_css_selector lt lv,
   try_ai_prediction env lt lv, try_visual_recognition lt lv].filterMap id

/-- The comparison used by `strategies.sort(key=lambda x: x.confidence,
reverse=True)` (line 233): higher confidence first. -/
def strategyOrder (a b : HealingStrategy) : Prop :=
  b.confidence ≤ a.confidence

instance : DecidableRel strategyOrder :=
  fun a b => inferInstanceAs (Decidable (b.confidence ≤ a.confidence))

instance : IsTotal HealingStrategy strategyOrder :=
  ⟨fun a b => (le_total b.confidence a.confidence).imp id id⟩

instance : IsTrans HealingStrategy strategyOrder :=
  ⟨fun _ _ _ hab hbc => le_trans hbc hab⟩

/-- Python `list.sort` is a stable sort; with the key/reverse arguments of
line 233 it orders by confidence descending and keeps the original order
of equal confidences.  Insertion sort with `strategyOrder` has exactly
that semantics. -/
def sort_strategies (l : List HealingStrategy) : List HealingStrategy :=
  List.insertionSort strategyOrder l

/-- `SelfHealingEngine._generate_healing_strategies` (lines 220-234). -/
def generate_healing_strategies (env : HealEnv) (lt lv : String) :
    List HealingStrategy :=
  sort_strategies (gather_strategies env lt lv)

/-- The mutable state of `SelfHealingEngine`: the healing cache dict and
the learner. -/
structure EngineState where
  healing_cache : List (String × HealingStrategy)
  learner : LearnerState

/-- The strategy loop of `find_element_with_healing` (lines 190-218): try
each strategy's locator; on resolution, validate; on acceptance, write the
cache (line 204) and then learn (line 212) — the learner call mutates the
history (key insertion) and then raises, the `except Exception` on line
215 catches it and the loop continues with the cache and the learner
already updated; when the list is exhausted, raise (line 218).  The one
Python `learn_element` call is pure in this model, so its exception and
its state effect are read off as the two projections of the same term. -/
def heal_loop (env : HealEnv) (element_id lv : String) :
    List HealingStrategy → EngineState →
    Except String Element × EngineState
  | [], st => (Except.error "Could not heal element", st)
  | s :: rest, st =>
    match env.find s.new_locator_type s.new_locator_value with
    | none => heal_loop env element_id lv rest st
    | some e =>
      if validate_healed_element env e lv then
        match (learn_element st.learner element_id
            (create_element_signature e s.new_locator_type
              s.new_locator_value) true).1 with
        | Except.ok _ =>
          (Except.ok e,
           { healing_cache := dictInsert st.healing_cache element_id s
             learner := (learn_element st.learner element_id
               (create_element_signature e s.new_locator_type
                 s.new_locator_value) true).2 })
        | Except.error _ =>
          heal_loop env element_id lv rest
            { healing_cache := dictInsert st.healing_cache element_id s
              learner := (learn_element st.learner element_id
                (create_element_signature e s.new_locator_type
                  s.new_locator_value) true).2 }
      else heal_loop env element_id lv rest st

/-- Lines 173-218 of `find_element_with_healing`: the healing-cache lookup
(the cached strategy, when present, is re-resolved and returned without
any validation), then the generated-strategy loop. -/
def engine_after_direct (env : HealEnv) (st : EngineState)
    (element_id lt lv : String) : Except String Element × EngineState :=
  match assocFind st.healing_cache element_id with
  | some cached =>
    match env.find cached.new_locator_type cached.new_locator_value with
    | some e => (Except.ok e, st)
    | none =>
      heal_loop env element_id lv (generate_healing_strategies env lt lv) st
  | none =>
    heal_loop env element_id lv (generate_healing_strategies env lt lv) st

/-- `SelfHealingEngine.find_element_with_healing` (lines 159-218).  The
original locator is tried first; on success the learner is invoked (line
168) — that call inserts the history key and then raises `NameError`, the
`except` on line 170 catches it, and control falls through to the cache
lookup and the healing loop with the mutated learner.  As in `heal_loop`,
the single Python learner call is pure here, so its exception and state
effect are the two projections of the same term. -/
def find_element_with_healing (env : HealEnv) (st : EngineState)
    (lt lv : String) : Except String Element × EngineState :=
  let element_id := lt ++ ":" ++ lv
  match env.find lt lv with
  | some e =>
    match (learn_element st.learner element_id
        (create_element_signature e lt lv) true).1 with
    | Except.ok _ =>
      (Except.ok e,
       { st with learner := (learn_element st.learner element_id
           (create_element_signature e lt lv) true).2 })
    | Except.error _ =>
      engine_after_direct env
        { st with learner := (learn_element st.learner element_id
            (create_element_signature e lt lv) true).2 }
        element_id lt lv
  | none => engine_after_direct env st element_id lt lv

/-- One entry of the report's `healed_elements` list (lines 443-448). -/
structure HealedElementEntry where
  original : String
  strategy : String
  new_locator : String
  confidence : ℚ
deriving DecidableEq, Repr

/-- The dict returned by `generate_healing_report` (lines 431-436);
`strategies_used` is a string-keyed counter dict in insertion order. -/
structure HealingReport where
  total_healings : Nat
  strategies_used : List (String × Nat)
  success_rate : ℚ
  healed_elements : List HealedElementEntry
deriving DecidableEq, Repr

/-- Lines 439-441: `report['strategies_used'][name] += 1` with a 0
default — bump an existing counter or append a fresh one. -/
def bumpCount : List (String × Nat) → String → List (String × Nat)
  | [], name => [(name, 1)]
  | (k, c) :: rest, name =>
    if k = name then (k, c + 1) :: rest else (k, c) :: bumpCount rest name

/-- The body of the report loop (lines 438-448): increment one strategy
counter and append one `healed_elements` entry for the cache item. -/
def report_step (report : HealingReport) (entry : String × HealingStrategy) :
    HealingReport :=
  { report with
    strategies_used := bumpCount report.strategies_used entry.2.name
    healed_elements := report.healed_elements ++
      [{ original := entry.1
         strategy := entry.2.name
         new_locator := entry.2.new_locator_type ++ "=" ++
           entry.2.new_locator_value
         confidence := entry.2.confidence }] }

/-- `SelfHealingEngine.generate_healing_report` (lines 429-450):
`total_healings` is set to the cache size up front, then one pass over the
cache runs `report_step` per cached key.  `success_rate` is initialised
to 0 and never updated. -/
def generate_healing_report (cache : List (String × HealingStrategy)) :
    HealingReport :=
  cache.foldl report_step
    { total_healings := cache.length
      strategies_used := []
      success_rate := 0
      healed_elements := [] }

/-- Sum of the per-strategy counters of a report
(`strategies_used` counter dict). -/
def countsSum (m : List (String × Nat)) : Nat :=
  (m.map Prod.snd).sum

end SelfHealing

namespace DeviceUtils

/-- An element handle returned by the Appium driver; its contents are
irrelevant to the `device_utils.py` claims. -/
abbrev Elem := Nat

/-- The outcome of one `driver.find_element` call: an element, a
`NoSuchElementException` ("not present"), or a transport-level
`WebDriverException`. -/
inductive DriverOutcome
  | found (e : Elem)
  | absent
  | transportError
deriving DecidableEq, Repr

/-- The four locator types `ElementFinder._find_single_locator` dispatches
on (lines 823-838); any other type performs no driver query at all. -/
def known_locator (lt : String) : Bool :=
  ["xpath", "id", "class", "content-desc"].contains (pyLower lt)

/-- The retry loop body of `_find_single_locator` (lines 821-841): one
driver query per attempt, indexed by the attempt number.  The bare
`except:` on line 839 catches every exception — `NoSuchElementException`
and transport errors alike — sleeps, and retries; after `timeout`
attempts the function returns `None` (line 841).  The `Except` result
channel models an exception escaping to the caller: no branch ever
produces it. -/
def fsl_loop (driver : Nat → DriverOutcome) (lt : String) :
    Nat → Nat → Except Unit (Option Elem)
  | _, 0 => Except.ok none
  | attempt, n + 1 =>
    if known_locator lt then
      match driver attempt with
      | DriverOutcome.found e => Except.ok (some e)
      | DriverOutcome.absent => fsl_loop driver lt (attempt + 1) n
      | DriverOutcome.transportError => fsl_loop driver lt (attempt + 1) n
    else fsl_loop driver lt (attempt + 1) n

/-- `ElementFinder._find_single_locator` (lines 819-841). -/
def find_single_locator (driver : Nat → DriverOutcome) (lt : String)
    (timeout : Nat) : Except Unit (Option Elem) :=
  fsl_loop driver lt 0 timeout

/-- The candidate expansion at the top of
`ElementFinder.find_element_safe` (lines 785-791 and 807-809): when the
raw value contains a pipe, split on every pipe and strip each part (empty
parts are kept); otherwise the raw value itself is the single candidate,
unstripped. -/
def expand_candidates (raw : String) : List String :=
  if pyContains raw '|' then
    (splitOnSep (fun c => c = '|') raw.data).map
      (fun l => String.mk (pyStrip l))
  else [raw]

/-- The driver state that matters to
`DeviceUtils.find_element_with_smart_fallback` (lines 653-720): the
available contexts and, for the requested locator, whether the element is
resolvable in a given context.  Context switches
(`driver.switch_to.context`) are modelled as always succeeding, matching
the external `switchSurface` interface; element lookups never raise
(`find_element_safe` swallows every exception internally). -/
structure DeviceEnv where
  contexts : List String
  findIn : String → Bool

/-- The context-switching loop of `find_element_with_smart_fallback`
(lines 696-717): for each available context other than the originating
one, switch to it; on success stay there (lines 704-707); on failure
switch back to the originating context (line 710) before trying the next.
The result is (context in which the element was found, current context
after the loop). -/
def context_loop (env : DeviceEnv) (orig : String) :
    List String → Option String × String
  | [] => (none, orig)
  | c :: cs =>
    if c = orig then context_loop env orig cs
    else if env.findIn c then (some c, c)
    else context_loop env orig cs

/-- `DeviceUtils.find_element_with_smart_fallback` (lines 653-720),
tracking the driver's current context: the retry loop (lines 670-674) and
the scroll stage (lines 676-681) both query the current context and never
switch it; then, when more than one context exists, the context loop
runs; the final attempt (line 720) queries again without switching.  The
result is (context in which the element was found, final current
context). -/
def find_element_with_smart_fallback (env : DeviceEnv)
    (current : String) : Option String × String :=
  if env.findIn current then (some current, current)
  else if env.contexts.length > 1 then
    match context_loop env current env.contexts with
    | (some c, s) => (some c, s)
    | (none, _) =>
      (if env.findIn current then some current else none, current)
  else (if env.findIn current then some current else none, current)

end DeviceUtils

namespace SelfHealing

/-- The strategy `_try_partial_match` emits for the locator
`id=login_btn_9f3a`: the first separator-split segment of the value is
`login`, so the synthesized XPath matches ids starting with `login`. -/
def partial_strategy_login : HealingStrategy :=
  { name := "Partial ID Match"
    confidence := q_07
    new_locator_type := "xpath"
    new_locator_value := "//*[starts-with(@id, \x27login\x27)]"
    reasoning := "Dynamic ID detected, using partial match" }

/-- The strategy `_try_text_search` emits for the locator
`id=login_btn_9f3a`. -/
def text_strategy_login : HealingStrategy :=
  { name := "Text Search"
    confidence := q_06
    new_locator_type := "xpath"
    new_locator_value :=
      "//*[contains(text(), \x27Login Btn 9F3A\x27) or contains(@value, \x27Login Btn 9F3A\x27)]"
    reasoning := "Searching by text content" }

/-- The strategy `_try_css_selector` emits for the locator
`id=login_btn_9f3a`. -/
def css_strategy_login : HealingStrategy :=
  { name := "CSS Selector"
    confidence := q_065
    new_locator_type := "css"
    new_locator_value := "#login_btn_9f3a"
    reasoning := "Converting to CSS selector" }

/-- An environment whose similarity oracle always answers exactly 0.5 and
which resolves nothing. -/
def sim_half_env : HealEnv :=
  { find := fun _ _ => none
    queryAll := fun _ => []
    sim := fun _ _ => q_half }

/-- A displayed and enabled button whose text matches nothing. -/
def displayed_button : Element :=
  { displayed := true, enabled := true, text := "Login"
    tag_name := "button", attrs := [], siblings := 0 }

/-- The same button, not displayed. -/
def hidden_button : Element :=
  { displayed := false, enabled := true, text := "Login"
    tag_name := "button", attrs := [], siblings := 0 }

/-- A fresh learner: empty history, no retrain yet, unfitted classifier. -/
def empty_learner : LearnerState :=
  { element_history := [], retrains := 0, model := none }

/-- A fresh engine: empty healing cache, fresh learner. -/
def empty_engine : EngineState :=
  { healing_cache := [], learner := empty_learner }

/-- The element the partial-match XPath resolves to in the end-to-end
login scenario. -/
def healed_login_element : Element :=
  { displayed := true, enabled := true, text := "Login"
    tag_name := "android.widget.Button", attrs := [], siblings := 0 }

/-- The driver state of the end-to-end login scenario: the original
locator `id=login_btn_9f3a` resolves nothing, only the partial-match
XPath resolves (to a displayed, enabled element), and no elements are
queryable for the learned-prediction sample. -/
def login_env : HealEnv :=
  { find := fun lt lv =>
      if lt = "xpath" ∧ lv = partial_strategy_login.new_locator_value then
        some healed_login_element
      else none
    queryAll := fun _ => []
    sim := fun _ _ => 0 }

/-- A strategy sitting in the healing cache for the key `id:submit_btn`. -/
def cached_strategy : HealingStrategy :=
  { name := "CSS Selector"
    confidence := q_065
    new_locator_type := "css"
    new_locator_value := "#submit"
    reasoning := "Converting to CSS selector" }

/-- An element that the Healing Validator would reject: not displayed. -/
def hidden_submit : Element :=
  { displayed := false, enabled := true, text := ""
    tag_name := "button", attrs := [("id", "submit")], siblings := 0 }

/-- A driver state where the original locator `id=submit_btn` resolves
nothing and the cached CSS locator resolves to the hidden element. -/
def cache_env : HealEnv :=
  { find := fun lt lv =>
      if lt = "css" ∧ lv = "#submit" then some hidden_submit else none
    queryAll := fun _ => []
    sim := fun _ _ => 0 }

/-- Engine state holding one healing-cache entry for `id:submit_btn`. -/
def cached_state : EngineState :=
  { healing_cache := [("id:submit_btn", cached_strategy)]
    learner := empty_learner }

/-- A well-formed signature (its locator value tokenizes to
`login_button`). -/
def sig_login : ElementSignature :=
  { locator_type := "id", locator_value := "login_button"
    attributes := [], text := "", tag_name := ""
    parent_signature := none, siblings_count := 0, position := 0 }

/-- A degenerate signature: every text feature is empty, so the
vectorizer sees an empty vocabulary. -/
def sig_empty : ElementSignature :=
  { locator_type := "", locator_value := ""
    attributes := [], text := "", tag_name := ""
    parent_signature := none, siblings_count := 0, position := 0 }

/-- Three synthesized strategies with confidences 0.7, 0.5 and 0.65, in
registration order. -/
def strategy_a : HealingStrategy :=
  { name := "A", confidence := q_07, new_locator_type := "xpath"
    new_locator_value := "//a", reasoning := "r" }

def strategy_b : HealingStrategy :=
  { name := "B", confidence := q_half, new_locator_type := "xpath"
    new_locator_value := "//b", reasoning := "r" }

def strategy_c : HealingStrategy :=
  { name := "C", confidence := q_065, new_locator_type := "css"
    new_locator_value := "#c", reasoning := "r" }

/-- A two-entry healing cache with distinct keys. -/
def report_cache_ex : List (String × HealingStrategy) :=
  [("id:a", partial_strategy_login), ("id:b", cached_strategy)]

end SelfHealing

namespace DeviceUtils

/-- A hybrid app exposing two contexts, with the requested element
resolvable in neither. -/
def dual_env : DeviceEnv :=
  { contexts := ["NATIVE_APP", "WEBVIEW_chrome"]
    findIn := fun _ => false }

end DeviceUtils

namespace SelfHealing

/-- The normal-form constant for 0.5 equals the rational one half. -/
theorem q_half_eq : q_half = 1/2 := by
  rw [show q_half = Rat.divInt 1 2 from Rat.mk'_eq_divInt]
  rw [Rat.divInt_eq_div]
  norm_num

/-- The normal-form constant for 0.6 equals three fifths. -/
theorem q_06_eq : q_06 = 3/5 := by
  rw [show q_06 = Rat.divInt 3 5 from Rat.mk'_eq_divInt]
  rw [Rat.divInt_eq_div]
  norm_num

/-- The normal-form constant for 0.65 equals thirteen twentieths. -/
theorem q_065_eq : q_065 = 13/20 := by
  rw [show q_065 = Rat.divInt 13 20 from Rat.mk'_eq_divInt]
  rw [Rat.divInt_eq_div]
  norm_num

/-- The normal-form constant for 0.7 equals seven tenths. -/
theorem q_07_eq : q_07 = 7/10 := by
  rw [show q_07 = Rat.divInt 7 10 from Rat.mk'_eq_divInt]
  rw [Rat.divInt_eq_div]
  norm_num

/-- A displayed and enabled element always passes the validator: every
branch after the displayed/enabled guard returns `True`, including the
last-resort `return True` on line 375. -/
theorem validate_of_displayed_enabled (env : HealEnv) (e : Element)
    (v : String) (hd : e.displayed = true) (he : e.enabled = true) :
    validate_healed_element env e v = true := by
  unfold validate_healed_element
  rw [hd, he]
  simp only [Bool.not_true, Bool.or_self, Bool.false_eq_true, if_false]
  split
  · rfl
  · split <;> rfl

/-- `learn_element` never completes normally: either the feature
extraction raises `ValueError`, or the history-entry construction raises
`NameError` on the unimported `time`. -/
theorem learn_element_not_ok (st : LearnerState) (eid : String)
    (sig : ElementSignature) (b : Bool) (u : Unit) :
    (learn_element st eid sig b).1 ≠ Except.ok u := by
  unfold learn_element
  cases extract_features sig <;> simp

/-- One `learn_element` call raises, and its only state effect is a
possible insertion of an empty history entry: the total record count and
the retrain count are unchanged. -/
theorem learn_element_step (st : LearnerState) (eid : String)
    (sig : ElementSignature) (b : Bool) :
    (∃ err, (learn_element st eid sig b).1 = Except.error err)
    ∧ totalRecords (learn_element st eid sig b).2 = totalRecords st
    ∧ (learn_element st eid sig b).2.retrains = st.retrains := by
  unfold learn_element
  cases extract_features sig with
  | error e => exact ⟨⟨e, rfl⟩, rfl, rfl⟩
  | ok f =>
    refine ⟨⟨PyError.nameError, rfl⟩, ?_, ?_⟩
    · show totalRecords
        (if st.element_history.any (fun p => p.1 = eid) then st
         else { st with element_history :=
           st.element_history ++ [(eid, [])] }) = totalRecords st
      split
      · rfl
      · simp [totalRecords]
    · show LearnerState.retrains
        (if st.element_history.any (fun p => p.1 = eid) then st
         else { st with element_history :=
           st.element_history ++ [(eid, [])] }) = st.retrains
      split <;> rfl

/-- A sequence of `learn_element` calls whose exceptions are swallowed
accumulates no learning record and triggers no retrain: at most it adds
empty history entries. -/
theorem learn_many_invariants
    (calls : List (String × ElementSignature × Bool)) :
    ∀ st : LearnerState,
      totalRecords (learn_many st calls) = totalRecords st
      ∧ (learn_many st calls).retrains = st.retrains := by
  induction calls with
  | nil => exact fun st => ⟨rfl, rfl⟩
  | cons c rest ih =>
    intro st
    obtain ⟨_, h3, h4⟩ := learn_element_step st c.1 c.2.1 c.2.2
    have e1 : learn_many st (c :: rest)
        = learn_many (learn_element st c.1 c.2.1 c.2.2).2 rest := rfl
    rw [e1]
    exact ⟨(ih _).1.trans h3, (ih _).2.trans h4⟩

/-- The strategy loop never returns an element: after a successful
validation the learner call raises, the exception is swallowed and the
loop continues, so the loop always ends in the line-218 exception. -/
theorem heal_loop_fst_error (env : HealEnv) (eid lv : String) :
    ∀ (l : List HealingStrategy) (st : EngineState),
      (heal_loop env eid lv l st).1 = Except.error "Could not heal element"
  | [], _ => rfl
  | s :: rest, st => by
    unfold heal_loop
    cases env.find s.new_locator_type s.new_locator_value with
    | none => exact heal_loop_fst_error env eid lv rest st
    | some e =>
      simp only
      split
      · cases h : (learn_element st.learner eid
            (create_element_signature e s.new_locator_type
              s.new_locator_value) true).1 with
        | ok u => exact absurd h (learn_element_not_ok _ _ _ _ _)
        | error err => exact heal_loop_fst_error env eid lv rest _
      · exact heal_loop_fst_error env eid lv rest st

end SelfHealing

/-- Splitting never yields an empty list of segments. -/
theorem splitOnSep_ne_nil (sep : Char → Bool) (l : List Char) :
    splitOnSep sep l ≠ [] := by
  induction l with
  | nil => simp [splitOnSep]
  | cons c cs ih =>
    unfold splitOnSep
    cases h : splitOnSep sep cs with
    | nil => simp
    | cons hd tl =>
      show (if sep c then [] :: hd :: tl else (c :: hd) :: tl) ≠ []
      split <;> simp

/-- A key absent from an association list is found after appending it. -/
theorem assocFind_append_self {α : Type} (m : List (String × α))
    (k : String) (v : α) (h : assocFind m k = none) :
    assocFind (m ++ [(k, v)]) k = some v := by
  induction m with
  | nil => simp [assocFind]
  | cons p rest ih =>
    unfold assocFind at h ⊢
    by_cases hk : p.1 = k
    · rw [if_pos hk] at h; cases h
    · rw [if_neg hk] at h
      rw [List.cons_append]
      show assocFind (p :: (rest ++ [(k, v)])) k = some v
      unfold assocFind
      rw [if_neg hk]
      exact ih h

/-- An absent key is not matched by `List.any`. -/
theorem assocFind_none_any_false {α : Type} (m : List (String × α))
    (k : String) (h : assocFind m k = none) :
    m.any (fun p => p.1 = k) = false := by
  induction m with
  | nil => rfl
  | cons p rest ih =>
    unfold assocFind at h
    by_cases hk : p.1 = k
    · rw [if_pos hk] at h; cases h
    · rw [if_neg hk] at h
      simp [List.any_cons, hk, ih h]

/-- Looking a key up right after overwriting-or-appending it under that
key yields the stored value, provided the key was previously absent. -/
theorem assocFind_dictInsert_self {α : Type} (m : List (String × α))
    (k : String) (v : α) (h : assocFind m k = none) :
    assocFind (dictInsert m k v) k = some v := by
  unfold dictInsert
  rw [assocFind_none_any_false m k h]
  simp only [Bool.false_eq_true, if_false]
  exact assocFind_append_self m k v h

namespace DeviceUtils

/-- The single-locator retry loop never lets an exception escape: every
driver outcome, transport errors included, is caught by the bare
`except:`. -/
theorem fsl_loop_ok (driver : Nat → DriverOutcome) (lt : String) :
    ∀ (n attempt : Nat), ∃ o, fsl_loop driver lt attempt n = Except.ok o := by
  intro n
  induction n with
  | zero => exact fun _ => ⟨none, rfl⟩
  | succ m ih =>
    intro attempt
    unfold fsl_loop
    by_cases hk : known_locator lt
    · rw [if_pos hk]
      cases hd : driver attempt with
      | found e => exact ⟨some e, rfl⟩
      | absent => exact ih (attempt + 1)
      | transportError => exact ih (attempt + 1)
    · rw [if_neg hk]
      exact ih (attempt + 1)

/-- When the driver never yields an element — whether it keeps answering
"absent" or keeps raising transport errors — the loop returns `None`. -/
theorem fsl_loop_none (driver : Nat → DriverOutcome) (lt : String)
    (h : ∀ n e, driver n ≠ DriverOutcome.found e) :
    ∀ (n attempt : Nat), fsl_loop driver lt attempt n = Except.ok none := by
  intro n
  induction n with
  | zero => exact fun _ => rfl
  | succ m ih =>
    intro attempt
    unfold fsl_loop
    by_cases hk : known_locator lt
    · rw [if_pos hk]
      cases hd : driver attempt with
      | found e => exact absurd hd (h attempt e)
      | absent => exact ih (attempt + 1)
      | transportError => exact ih (attempt + 1)
    · rw [if_neg hk]
      exact ih (attempt + 1)

/-- The context loop either ends back on the originating context with no
element found, or stays on the context where the element was found. -/
theorem context_loop_cases (env : DeviceEnv) (orig : String) :
    ∀ cs : List String,
      context_loop env orig cs = (none, orig)
      ∨ ∃ c, context_loop env orig cs = (some c, c) := by
  intro cs
  induction cs with
  | nil => exact Or.inl rfl
  | cons c rest ih =>
    unfold context_loop
    by_cases hc : c = orig
    · rw [if_pos hc]; exact ih
    · rw [if_neg hc]
      by_cases hf : env.findIn c = true
      · rw [if_pos hf]; exact Or.inr ⟨c, rfl⟩
      · rw [if_neg hf]; exact ih

end DeviceUtils

namespace SelfHealing

/-- Bumping a counter dict adds exactly one to the sum of its counters. -/
theorem countsSum_bumpCount (m : List (String × Nat)) (name : String) :
    countsSum (bumpCount m name) = countsSum m + 1 := by
  induction m with
  | nil => rfl
  | cons p rest ih =>
    cases p with
    | mk k c =>
      unfold bumpCount
      by_cases hk : k = name
      · rw [if_pos hk]
        simp [countsSum]
        ring
      · rw [if_neg hk]
        simp [countsSum] at ih ⊢
        omega

/-- Folding the report step over a cache adds one strategy count and one
healed-elements entry per cache item, and never touches the total. -/
theorem report_fold (cache : List (String × HealingStrategy)) :
    ∀ acc : HealingReport,
      countsSum ((cache.foldl report_step acc).strategies_used)
          = countsSum acc.strategies_used + cache.length
      ∧ ((cache.foldl report_step acc).healed_elements).length
          = acc.healed_elements.length + cache.length
      ∧ (cache.foldl report_step acc).total_healings = acc.total_healings := by
  induction cache with
  | nil => exact fun acc => ⟨rfl, rfl, rfl⟩
  | cons entry rest ih =>
    intro acc
    rw [List.foldl_cons]
    obtain ⟨h1, h2, h3⟩ := ih (report_step acc entry)
    refine ⟨?_, ?_, ?_⟩
    · rw [h1]
      show countsSum (bumpCount acc.strategies_used entry.2.name) + rest.length
        = countsSum acc.strategies_used + (rest.length + 1)
      rw [countsSum_bumpCount]
      ring
    · rw [h2]
      show (acc.healed_elements ++ [_]).length + rest.length
        = acc.healed_elements.length + (rest.length + 1)
      rw [List.length_append]
      simp
      omega
    · exact h3

end SelfHealing

namespace SelfHealing

/-- Inserting a strategy into a confidence-sorted list puts it before
every entry of equal or lower confidence, so among entries of any one
confidence value the inserted strategy comes first. -/
theorem filter_orderedInsert (x : HealingStrategy) (c : ℚ) :
    ∀ l : List HealingStrategy, l.Sorted strategyOrder →
      (List.orderedInsert strategyOrder x l).filter
          (fun s => decide (s.confidence = c))
        = (if x.confidence = c then [x] else [])
            ++ l.filter (fun s => decide (s.confidence = c)) := by
  intro l
  induction l with
  | nil =>
    intro _
    by_cases hx : x.confidence = c <;>
      simp [List.orderedInsert, List.filter, hx]
  | cons y ys ih =>
    intro hsorted
    rw [List.sorted_cons] at hsorted
    obtain ⟨hy, hys⟩ := hsorted
    unfold List.orderedInsert
    by_cases hxy : strategyOrder x y
    · rw [if_pos hxy]
      by_cases hx : x.confidence = c <;>
        simp [List.filter_cons, hx]
    · rw [if_neg hxy]
      have hlt : x.confidence < y.confidence := by
        unfold strategyOrder at hxy
        exact lt_of_not_le hxy
      rw [List.filter_cons, List.filter_cons, ih hys]
      by_cases hyc : y.confidence = c
      · have hxc : ¬ x.confidence = c := by
          intro hx
          rw [hx, hyc] at hlt
          exact lt_irrefl c hlt
        simp [hxc, hyc]
      · simp [hyc]

/-- Stability of the confidence sort: for every confidence value, the
entries carrying it appear in the sorted list exactly in their original
(registration) order. -/
theorem filter_sort_strategies (c : ℚ) :
    ∀ l : List HealingStrategy,
      (sort_strategies l).filter (fun s => decide (s.confidence = c))
        = l.filter (fun s => decide (s.confidence = c)) := by
  intro l
  induction l with
  | nil => rfl
  | cons x xs ih =>
    show (List.orderedInsert strategyOrder x
        (List.insertionSort strategyOrder xs)).filter
        (fun s => decide (s.confidence = c)) = _
    rw [filter_orderedInsert x c _
      (List.sorted_insertionSort strategyOrder xs)]
    rw [show (List.insertionSort strategyOrder xs).filter
        (fun s => decide (s.confidence = c))
      = xs.filter (fun s => decide (s.confidence = c)) from ih]
    rw [List.filter_cons]
    by_cases hx : x.confidence = c <;> simp [hx]

end SelfHealing

namespace SelfHealing

/-- When the original locator resolves nothing, the engine falls through
to the cache lookup and healing stages. -/
theorem engine_direct_miss (env : HealEnv) (st : EngineState)
    (lt lv : String) (h : env.find lt lv = none) :
    find_element_with_healing env st lt lv
      = engine_after_direct env st (lt ++ ":" ++ lv) lt lv := by
  unfold find_element_with_healing
  rw [h]

/-- When the original locator resolves, the learner call mutates the
history and raises, the exception is caught, and the engine falls through
to the cache lookup and healing stages with the mutated learner — the
found element is dropped. -/
theorem engine_direct_hit_falls_through (env : HealEnv) (st : EngineState)
    (lt lv : String) (e : Element) (h : env.find lt lv = some e) :
    find_element_with_healing env st lt lv
      = engine_after_direct env
          { st with learner := (learn_element st.learner (lt ++ ":" ++ lv)
              (create_element_signature e lt lv) true).2 }
          (lt ++ ":" ++ lv) lt lv := by
  unfold find_element_with_healing
  simp only [h]
  cases hlearn : (learn_element st.learner (lt ++ ":" ++ lv)
      (create_element_signature e lt lv) true).1 with
  | ok u => exact absurd hlearn (learn_element_not_ok _ _ _ _ _)
  | error err => rfl

/-- A cache miss sends the engine into the strategy loop. -/
theorem engine_cache_miss (env : HealEnv) (st : EngineState)
    (eid lt lv : String) (h : assocFind st.healing_cache eid = none) :
    engine_after_direct env st eid lt lv
      = heal_loop env eid lv (generate_healing_strategies env lt lv) st := by
  unfold engine_after_direct
  rw [h]

/-- A strategy whose locator resolves nothing is skipped. -/
theorem heal_loop_skip (env : HealEnv) (eid lv : String)
    (s : HealingStrategy) (rest : List HealingStrategy) (st : EngineState)
    (h : env.find s.new_locator_type s.new_locator_value = none) :
    heal_loop env eid lv (s :: rest) st = heal_loop env eid lv rest st := by
  conv_lhs => unfold heal_loop
  rw [h]

/-- A strategy that resolves to an element passing validation writes the
cache; the learner call then mutates the history and raises, and the loop
continues with the cache and learner both updated. -/
theorem heal_loop_accept (env : HealEnv) (eid lv : String)
    (s : HealingStrategy) (rest : List HealingStrategy) (st : EngineState)
    (e : Element)
    (h1 : env.find s.new_locator_type s.new_locator_value = some e)
    (h2 : validate_healed_element env e lv = true) :
    heal_loop env eid lv (s :: rest) st
      = heal_loop env eid lv rest
          { healing_cache := dictInsert st.healing_cache eid s
            learner := (learn_element st.learner eid
              (create_element_signature e s.new_locator_type
                s.new_locator_value) true).2 } := by
  conv_lhs => unfold heal_loop
  simp only [h1, h2, if_true]
  cases hlearn : (learn_element st.learner eid
      (create_element_signature e s.new_locator_type
        s.new_locator_value) true).1 with
  | ok u => exact absurd hlearn (learn_element_not_ok _ _ _ _ _)
  | error err => rfl

/-- When the stages after the direct attempt return an element, it came
from the healing cache: the cached strategy's locator resolved, and no
validation was run. -/
theorem engine_after_direct_ok (env : HealEnv) (st : EngineState)
    (eid lt lv : String) (e : Element)
    (h : (engine_after_direct env st eid lt lv).1 = Except.ok e) :
    ∃ s, assocFind st.healing_cache eid = some s
      ∧ env.find s.new_locator_type s.new_locator_value = some e := by
  unfold engine_after_direct at h
  split at h
  next cached heq =>
    split at h
    next e2 hf =>
      have h2 : Except.ok (ε := String) e2 = Except.ok e := h
      have he : e2 = e := by injection h2
      exact ⟨cached, heq, by rw [hf, he]⟩
    next hf =>
      rw [heal_loop_fst_error env eid lv _ st] at h
      cases h
  next heq =>
    rw [heal_loop_fst_error env eid lv _ st] at h
    cases h

end SelfHealing

namespace SelfHealing

/-- C3: the Healing Validator rejects outright any candidate element that
is not displayed or not enabled; for a displayed and enabled candidate
whose text similarity to the original locator value is exactly 0.5, the
text check fails (acceptance requires a ratio strictly greater than 0.5),
and even if every attribute-similarity check also fails, the last-resort
rule accepts the candidate, so validation returns accepted. -/
theorem validator_floor_and_last_resort (env : HealEnv) (e : Element)
    (orig : String) :
    ((e.displayed = false ∨ e.enabled = false) →
      validate_healed_element env e orig = false)
    ∧ (e.displayed = true → e.enabled = true →
       calculate_similarity env orig (element_text_of e) = 1/2 →
       (∀ attr ∈ (["id", "name", "class", "placeholder"] : List String),
         ¬ calculate_similarity env orig (getAttr e attr) > 1/2) →
       (¬ calculate_similarity env orig (element_text_of e) > 1/2)
       ∧ validate_healed_element env e orig = true) := by
  constructor
  · intro h
    unfold validate_healed_element
    rcases h with h | h <;> rw [h] <;> simp
  · intro hd he hsim _hattr
    refine ⟨?_, validate_of_displayed_enabled env e orig hd he⟩
    rw [hsim]
    exact lt_irrefl (1/2)

/-- Witness for C3: with a similarity oracle pinned at exactly 0.5, a
displayed and enabled button is accepted and a hidden one is rejected. -/
theorem validator_floor_and_last_resort_witness :
    validate_healed_element sim_half_env displayed_button "login_btn" = true
    ∧ validate_healed_element sim_half_env hidden_button "login_btn"
        = false := by
  constructor
  · exact ((validator_floor_and_last_resort sim_half_env displayed_button
      "login_btn").2 rfl rfl q_half_eq
      (by
        intro attr _
        show ¬ ((1:ℚ)/2 < q_half)
        rw [q_half_eq]
        exact lt_irrefl _)).2
  · exact (validator_floor_and_last_resort sim_half_env hidden_button
      "login_btn").1 (Or.inl rfl)

/-- C5 (amended): `learn_element` never records an outcome — every call
raises (a `ValueError` from feature extraction, or the `NameError` on
the unimported `time` name) after at most inserting an empty history
entry for a new element identity (line 57 runs before the raise), so the
total number of accumulated learning records and the retrain count never
change, and the confidence-model refresh is never triggered. -/
theorem learn_element_never_records :
    (∀ (st : LearnerState) (eid : String) (sig : ElementSignature)
        (b : Bool),
      (∃ err, (learn_element st eid sig b).1 = Except.error err)
      ∧ totalRecords (learn_element st eid sig b).2 = totalRecords st
      ∧ (learn_element st eid sig b).2.retrains = st.retrains)
    ∧ ∀ (st : LearnerState)
        (calls : List (String × ElementSignature × Bool)),
        totalRecords (learn_many st calls) = totalRecords st
        ∧ (learn_many st calls).retrains = st.retrains :=
  ⟨learn_element_step, fun st calls => learn_many_invariants calls st⟩

set_option maxRecDepth 8000 in
/-- C5 counterexample: one hundred recorded outcomes for the element
`id:login_button` trigger zero retrains (the claim predicts one): the
history ends with the single key `id:login_button` holding an empty
record list — the key was inserted by the first call before its
`NameError`, and no record was ever appended. -/
theorem retrain_trigger_counterexample :
    (learn_many empty_learner
        (List.replicate 100 ("id:login_button", sig_login, true))).retrains
      = 0
    ∧ (learn_many empty_learner
        (List.replicate 100 ("id:login_button", sig_login, true))).element_history
      = [("id:login_button", [])]
    ∧ totalRecords (learn_many empty_learner
        (List.replicate 100 ("id:login_button", sig_login, true)))
      = 0 :=
  ⟨rfl, rfl, rfl⟩

/-- C6 (amended): on an untrained store, `predict_success` returns
exactly 0.5 for every signature whose feature extraction succeeds; when
feature extraction fails, the error propagates to the caller (the
extraction happens before the `try` block), instead of the neutral
default being returned. -/
theorem predict_success_untrained_default (st : LearnerState)
    (sig : ElementSignature) (feats : List String)
    (hmodel : st.model = none)
    (hfeat : extract_features sig = Except.ok feats) :
    predict_success st sig = Except.ok (1/2) := by
  unfold predict_success
  rw [hfeat, hmodel, q_half_eq]

/-- Witness for C6: the untrained learner answers 0.5 on a well-formed
signature. -/
theorem predict_success_untrained_default_witness :
    predict_success empty_learner sig_login = Except.ok (1/2) :=
  predict_success_untrained_default empty_learner sig_login
    ["login_button"] rfl rfl

/-- C6 counterexample: on the all-empty signature the feature extraction
fails and `predict_success` raises (`ValueError` propagates) instead of
returning the neutral 0.5 — even though the store is untrained. -/
theorem predict_success_raises_counterexample :
    predict_success empty_learner sig_empty
      = Except.error PyError.valueError := rfl

end SelfHealing

namespace DeviceUtils

/-- C4 (amended): for every candidate locator the Direct Resolver returns
a negative result (`None`) rather than raising when the element is not
present — and it does the same for driver-transport errors: the bare
`except:` converts them into retries and finally `None`, so no distinct
driver-error failure kind ever reaches the caller. -/
theorem find_single_locator_never_raises :
    (∀ (driver : Nat → DriverOutcome) (lt : String) (timeout : Nat),
      ∃ o, find_single_locator driver lt timeout = Except.ok o)
    ∧ ∀ (driver : Nat → DriverOutcome) (lt : String) (timeout : Nat),
        (∀ n e, driver n ≠ DriverOutcome.found e) →
        find_single_locator driver lt timeout = Except.ok none := by
  constructor
  · exact fun driver lt timeout => fsl_loop_ok driver lt timeout 0
  · exact fun driver lt timeout h => fsl_loop_none driver lt h timeout 0

/-- Witness for C4 (amended): a driver that always raises transport
errors still produces the `None` outcome. -/
theorem find_single_locator_never_raises_witness :
    find_single_locator (fun _ => DriverOutcome.transportError) "id" 5
      = Except.ok none :=
  find_single_locator_never_raises.2
    (fun _ => DriverOutcome.transportError) "id" 5
    (fun _ _ h => DriverOutcome.noConfusion h)

/-- C4 counterexample: with a driver that raises a transport error on
every query, the resolver returns the same `NotFound` value (`.ok none`)
as for an absent element, instead of propagating a distinct driver-error
failure — the claimed `DriverError` propagation does not happen. -/
theorem transport_error_becomes_notfound_counterexample :
    find_single_locator (fun _ => DriverOutcome.transportError) "id" 3
      = Except.ok none
    ∧ find_single_locator (fun _ => DriverOutcome.absent) "id" 3
      = Except.ok none := ⟨rfl, rfl⟩

/-- C7 (amended): candidate expansion splits a pipe-containing value on
every pipe and strips each entry, preserving order, but does not discard
empty entries; a pipe-free value is passed through unchanged as a single
candidate, so the returned list always has length at least one — even
for an empty or all-whitespace raw value, which is attempted as a locator
rather than treated as immediate failure. -/
theorem expand_candidates_amended :
    (∀ raw : String, expand_candidates raw ≠ [])
    ∧ expand_candidates "a| b |c" = ["a", "b", "c"]
    ∧ expand_candidates "a||b" = ["a", "", "b"]
    ∧ expand_candidates "" = [""] := by
  refine ⟨?_, rfl, rfl, rfl⟩
  intro raw
  unfold expand_candidates
  by_cases hc : pyContains raw '|'
  · rw [if_pos hc]
    intro h
    rw [List.map_eq_nil_iff] at h
    exact splitOnSep_ne_nil _ _ h
  · rw [if_neg hc]
    simp

/-- C7 counterexample: the empty entry of `"a||b"` is kept, and the
all-whitespace value `" "` yields a one-entry candidate list rather than
the empty list the claim requires. -/
theorem expand_candidates_counterexample :
    "" ∈ expand_candidates "a||b" ∧ expand_candidates " " ≠ [] := by
  constructor
  · rw [show expand_candidates "a||b" = ["a", "", "b"] from rfl]
    simp
  · rw [show expand_candidates " " = [" "] from rfl]
    simp

/-- C9: whenever the Surface Switcher tries a non-current surface and
fails to resolve the element there, it switches back to the originating
surface before trying the next candidate; hence after a resolution
request in which every surface attempt fails, the current surface equals
the surface that was active before the stage began. -/
theorem surface_restored_on_failure (env : DeviceEnv) (current : String)
    (h : (find_element_with_smart_fallback env current).1 = none) :
    (find_element_with_smart_fallback env current).2 = current := by
  unfold find_element_with_smart_fallback at h ⊢
  by_cases hf : env.findIn current
  · rw [if_pos hf] at h
    cases h
  · rw [if_neg hf] at h ⊢
    by_cases hl : env.contexts.length > 1
    · rw [if_pos hl] at h ⊢
      rcases context_loop_cases env current env.contexts with hc | ⟨c, hc⟩
      · rw [hc]
      · rw [hc] at h
        cases h
    · rw [if_neg hl] at h ⊢

/-- Witness for C9: a two-context app in which the element resolves
nowhere ends the request on the originating context. -/
theorem surface_restored_on_failure_witness :
    (find_element_with_smart_fallback dual_env "NATIVE_APP").2
      = "NATIVE_APP" :=
  surface_restored_on_failure dual_env "NATIVE_APP" rfl

end DeviceUtils

namespace SelfHealing

/-- C8: the Healing Strategy Generator hands strategies to the validator
sorted by confidence descending, with ties broken by generator
registration order (the sort is stable over the registration-ordered
gathered list); in particular three synthesized strategies with
confidences 0.7, 0.5 and 0.65 are offered in the order 0.7, 0.65, 0.5. -/
theorem strategies_sorted_by_confidence :
    (∀ (env : HealEnv) (lt lv : String),
      (generate_healing_strategies env lt lv).Sorted strategyOrder
      ∧ (generate_healing_strategies env lt lv).Perm
          (gather_strategies env lt lv)
      ∧ ∀ c : ℚ,
          (generate_healing_strategies env lt lv).filter
              (fun s => decide (s.confidence = c))
            = (gather_strategies env lt lv).filter
                (fun s => decide (s.confidence = c)))
    ∧ strategy_b.confidence = 1/2 ∧ strategy_c.confidence = 13/20
    ∧ strategy_a.confidence = 7/10
    ∧ sort_strategies [strategy_a, strategy_b, strategy_c]
        = [strategy_a, strategy_c, strategy_b] := by
  refine ⟨fun env lt lv => ⟨List.sorted_insertionSort strategyOrder _,
      List.perm_insertionSort strategyOrder _,
      fun c => filter_sort_strategies c _⟩,
    q_half_eq, q_065_eq, q_07_eq, ?_⟩
  decide

/-- C10: the healing report's `total_healings` equals the number of
distinct cached locator keys, `healed_elements` has exactly one entry per
cached key, and the per-strategy counts sum to `total_healings`. -/
theorem healing_report_consistent
    (cache : List (String × HealingStrategy))
    (h : (cache.map Prod.fst).Nodup) :
    (generate_healing_report cache).total_healings
        = (cache.map Prod.fst).dedup.length
    ∧ (generate_healing_report cache).healed_elements.length
        = (generate_healing_report cache).total_healings
    ∧ countsSum (generate_healing_report cache).strategies_used
        = (generate_healing_report cache).total_healings := by
  obtain ⟨h1, h2, h3⟩ := report_fold cache
    { total_healings := cache.length
      strategies_used := []
      success_rate := 0
      healed_elements := [] }
  have htot : (generate_healing_report cache).total_healings
      = cache.length := by
    unfold generate_healing_report
    rw [h3]
  refine ⟨?_, ?_, ?_⟩
  · rw [htot, h.dedup, List.length_map]
  · show (List.foldl report_step _ cache).healed_elements.length = _
    rw [h2, htot]
    simp
  · show countsSum (List.foldl report_step _ cache).strategies_used = _
    rw [h1, htot]
    simp [countsSum]

/-- Witness for C10: the invariants on a concrete two-entry cache. -/
theorem healing_report_consistent_witness :
    (generate_healing_report report_cache_ex).total_healings
        = (report_cache_ex.map Prod.fst).dedup.length
    ∧ (generate_healing_report report_cache_ex).healed_elements.length
        = (generate_healing_report report_cache_ex).total_healings
    ∧ countsSum (generate_healing_report report_cache_ex).strategies_used
        = (generate_healing_report report_cache_ex).total_healings :=
  healing_report_consistent report_cache_ex (by decide)

end SelfHealing

namespace SelfHealing

/-- C2 (amended): any element reference the engine returns was obtained
by direct match on the original locator, by Healing Validator acceptance,
or by re-resolving a previously cached healing strategy — and the
cache-hit path performs no re-validation. -/
theorem returned_element_provenance (env : HealEnv) (st : EngineState)
    (lt lv : String) (e : Element)
    (h : (find_element_with_healing env st lt lv).1 = Except.ok e) :
    env.find lt lv = some e
    ∨ validate_healed_element env e lv = true
    ∨ ∃ s, assocFind st.healing_cache (lt ++ ":" ++ lv) = some s
        ∧ env.find s.new_locator_type s.new_locator_value = some e := by
  cases hfind : env.find lt lv with
  | some e0 =>
    rw [engine_direct_hit_falls_through env st lt lv e0 hfind] at h
    obtain ⟨s', hs1, hs2⟩ := engine_after_direct_ok env
      { st with learner := (learn_element st.learner (lt ++ ":" ++ lv)
          (create_element_signature e0 lt lv) true).2 }
      (lt ++ ":" ++ lv) lt lv e h
    exact Or.inr (Or.inr ⟨s', hs1, hs2⟩)
  | none =>
    rw [engine_direct_miss env st lt lv hfind] at h
    exact Or.inr (Or.inr (engine_after_direct_ok env st _ lt lv e h))

/-- Witness for C2 (amended): a request served from the healing cache. -/
theorem returned_element_provenance_witness :
    cache_env.find "id" "submit_btn" = some hidden_submit
    ∨ validate_healed_element cache_env hidden_submit "submit_btn" = true
    ∨ ∃ s, assocFind cached_state.healing_cache ("id" ++ ":" ++ "submit_btn")
          = some s
        ∧ cache_env.find s.new_locator_type s.new_locator_value
          = some hidden_submit :=
  returned_element_provenance cache_env cached_state "id" "submit_btn"
    hidden_submit rfl

/-- C2 counterexample: with a cached strategy whose locator now resolves
to an element that is not displayed, the engine returns that element from
the cache-hit path even though the original locator fails the direct
match and the Healing Validator would reject the element — so a returned
reference passed neither check. -/
theorem cache_hit_skips_validation_counterexample :
    (find_element_with_healing cache_env cached_state "id" "submit_btn").1
      = Except.ok hidden_submit
    ∧ cache_env.find "id" "submit_btn" = none
    ∧ validate_healed_element cache_env hidden_submit "submit_btn"
      = false :=
  ⟨rfl, rfl, rfl⟩

end SelfHealing

namespace SelfHealing

/-- C1 (amended): for a resolution request `id=login_btn_9f3a` whose
direct resolution fails (and with no cache entry and no queryable
elements for the learned-prediction sample), the Partial-identifier
heuristic emits the strategy named "Partial ID Match" with confidence 0.7
whose synthesized locator matches ids by the stable prefix `login` — the
first separator-split segment, not `login_btn`; if that strategy resolves
to a displayed, enabled element (and the other generated strategies
resolve nothing), the validator accepts the element and afterwards the
healing cache maps the key `id:login_btn_9f3a` to that strategy. -/
theorem partial_id_match_heals_login (env : HealEnv) (st : EngineState)
    (e : Element)
    (hdirect : env.find "id" "login_btn_9f3a" = none)
    (hcache : assocFind st.healing_cache "id:login_btn_9f3a" = none)
    (hq : env.queryAll "//*[@id]" = [])
    (hres : env.find partial_strategy_login.new_locator_type
        partial_strategy_login.new_locator_value = some e)
    (hdisp : e.displayed = true) (hen : e.enabled = true)
    (hothers : ∀ s ∈ gather_strategies env "id" "login_btn_9f3a",
      s.name ≠ "Partial ID Match" →
      env.find s.new_locator_type s.new_locator_value = none) :
    try_partial_match "id" "login_btn_9f3a" = some partial_strategy_login
    ∧ partial_strategy_login.confidence = 7/10
    ∧ validate_healed_element env e "login_btn_9f3a" = true
    ∧ assocFind
        (find_element_with_healing env st "id"
          "login_btn_9f3a").2.healing_cache "id:login_btn_9f3a"
      = some partial_strategy_login := by
  have hai : try_ai_prediction env "id" "login_btn_9f3a" = none := by
    unfold try_ai_prediction
    rw [if_pos rfl, hq]
    rfl
  have hgather : gather_strategies env "id" "login_btn_9f3a"
      = [partial_strategy_login, text_strategy_login, css_strategy_login] := by
    unfold gather_strategies
    rw [hai]
    rfl
  have hstrat : generate_healing_strategies env "id" "login_btn_9f3a"
      = [partial_strategy_login, css_strategy_login, text_strategy_login] := by
    unfold generate_healing_strategies
    rw [hgather]
    rfl
  have hval : validate_healed_element env e "login_btn_9f3a" = true :=
    validate_of_displayed_enabled env e _ hdisp hen
  have hcss : env.find css_strategy_login.new_locator_type
      css_strategy_login.new_locator_value = none := by
    refine hothers css_strategy_login ?_ (by decide)
    rw [hgather]
    simp
  have htext : env.find text_strategy_login.new_locator_type
      text_strategy_login.new_locator_value = none := by
    refine hothers text_strategy_login ?_ (by decide)
    rw [hgather]
    simp
  refine ⟨rfl, q_07_eq, hval, ?_⟩
  rw [engine_direct_miss env st "id" "login_btn_9f3a" hdirect]
  rw [show ("id" ++ ":" ++ "login_btn_9f3a" : String) = "id:login_btn_9f3a"
    from rfl]
  rw [engine_cache_miss env st "id:login_btn_9f3a" "id" "login_btn_9f3a"
    hcache]
  rw [hstrat]
  rw [heal_loop_accept env "id:login_btn_9f3a" "login_btn_9f3a"
    partial_strategy_login [css_strategy_login, text_strategy_login]
    st e hres hval]
  rw [heal_loop_skip env "id:login_btn_9f3a" "login_btn_9f3a"
    css_strategy_login [text_strategy_login] _ hcss]
  rw [heal_loop_skip env "id:login_btn_9f3a" "login_btn_9f3a"
    text_strategy_login [] _ htext]
  exact assocFind_dictInsert_self st.healing_cache "id:login_btn_9f3a"
    partial_strategy_login hcache

/-- Witness for C1 (amended): the end-to-end login scenario on a concrete
driver state. -/
theorem partial_id_match_heals_login_witness :
    validate_healed_element login_env healed_login_element
      "login_btn_9f3a" = true
    ∧ assocFind (find_element_with_healing login_env empty_engine "id"
        "login_btn_9f3a").2.healing_cache "id:login_btn_9f3a"
      = some partial_strategy_login := by
  have h := partial_id_match_heals_login login_env empty_engine
    healed_login_element rfl rfl rfl rfl rfl rfl (by decide)
  exact ⟨h.2.2.1, h.2.2.2⟩

/-- C1 counterexample: the Partial-identifier heuristic splits the value
`login_btn_9f3a` on every separator and keys the synthesized XPath on the
first segment `login`, not on the stable prefix `login_btn` the claim
names. -/
theorem partial_id_prefix_counterexample :
    try_partial_match "id" "login_btn_9f3a" = some partial_strategy_login
    ∧ partial_strategy_login.new_locator_value
        = "//*[starts-with(@id, \x27login\x27)]"
    ∧ (try_partial_match "id" "login_btn_9f3a").map
          (fun s => s.new_locator_value)
        ≠ some "//*[starts-with(@id, \x27login_btn\x27)]" := by
  refine ⟨rfl, rfl, ?_⟩
  decide

end SelfHealing
